import Mathlib

/-!
Verification of the GT911 touch-screen driver (Rust crate `gt911`,
file `src/lib.rs`) against its natural-language specification.

The driver is embedded shallowly.  The I2C bus is modelled as an oracle
`bus : Nat → BusResp E` giving the response to the n-th bus transaction
of a call (either `ok data`, the bytes placed in the caller's read
buffer, or `err e`, a transport failure E).  A `BusState` carries the
oracle, the index of the next transaction, and the trace of all
transactions issued so far, so that theorems can speak about exactly
which frames were put on the bus and in which order.  Rust `u8` bytes
are `Nat` values; a read buffer of length `n` is modelled exactly as in
Rust: a zero-initialised array of `n` bytes into which the transport
writes, hence `% 256` and zero-padding in the read primitive.  A Rust
panic (the `assert!` in `get_multi_touch`) is the `panicked` outcome.
-/

namespace GT911

/-- `const GT911_I2C_ADDR_BA: u8 = 0x5D` -/
def GT911_I2C_ADDR_BA : Nat := 0x5D

/-- `const GT911_PRODUCT_ID_REG: u16 = 0x8140` -/
def GT911_PRODUCT_ID_REG : Nat := 0x8140

/-- `const GT911_TOUCHPOINT_STATUS_REG: u16 = 0x814E` -/
def GT911_TOUCHPOINT_STATUS_REG : Nat := 0x814E

/-- `const GT911_TOUCHPOINT_1_REG: u16 = 0x814F` -/
def GT911_TOUCHPOINT_1_REG : Nat := 0x814F

/-- `const GT911_COMMAND_REG: u16 = 0x8040` -/
def GT911_COMMAND_REG : Nat := 0x8040

/-- `const MAX_NUM_TOUCHPOINTS: usize = 5` -/
def MAX_NUM_TOUCHPOINTS : Nat := 5

/-- `const TOUCHPOINT_ENTRY_LEN: usize = 8` -/
def TOUCHPOINT_ENTRY_LEN : Nat := 8

/-- `struct Point` of the source: one touch point. -/
structure Point where
  track_id : Nat
  x : Nat
  y : Nat
  area : Nat
deriving DecidableEq, Repr

/-- `enum Error<E>` of the source. -/
inductive Error (E : Type) where
  | UnexpectedProductId
  | I2C (e : E)
  | NotReady
deriving DecidableEq

/-- Response of the bus to one transaction: the bytes filled into the
caller's buffer on success, or the transport error. -/
inductive BusResp (E : Type) where
  | ok (data : List Nat)
  | err (e : E)

/-- A bus transaction as seen on the wire: a plain write of a frame, or a
combined write-then-read of `rlen` bytes. -/
inductive Tx where
  | write (addr : Nat) (bytes : List Nat)
  | writeRead (addr : Nat) (wbytes : List Nat) (rlen : Nat)
deriving DecidableEq, Repr

/-- The bus oracle together with the index of the next transaction and the
trace of the transactions issued so far. -/
structure BusState (E : Type) where
  bus : Nat → BusResp E
  idx : Nat
  trace : List Tx

/-- Outcome of a driver call: `Result<α, Error<E>>` of the source, plus
`panicked` for a failed `assert!`. -/
inductive DriverResult (E α : Type) where
  | ok (a : α)
  | err (e : Error E)
  | panicked
deriving DecidableEq

/-- `u16::to_be_bytes` for register addresses. -/
def to_be_bytes (r : Nat) : List Nat := [r / 256 % 256, r % 256]

/-- `u16::from_le_bytes` on two bytes. -/
def from_le_bytes (b0 b1 : Nat) : Nat := b0 + 256 * b1

/-- The shared register-write primitive (`fn write` in both impls):
compose the 3-byte frame (big-endian register address, then the value)
and issue it as a single bus write. -/
def busWrite {E : Type} (i2c_addr : Nat) (register : Nat) (value : Nat)
    (s : BusState E) : Except E Unit × BusState E :=
  let reg := to_be_bytes register
  let cmd := [reg.getD 0 0, reg.getD 1 0, value]
  match s.bus s.idx with
  | .ok _ => (.ok (), ⟨s.bus, s.idx + 1, s.trace ++ [Tx.write i2c_addr cmd]⟩)
  | .err e => (.error e, ⟨s.bus, s.idx + 1, s.trace ++ [Tx.write i2c_addr cmd]⟩)

/-- The shared register-read primitive (`fn read` in both impls): a
combined write-then-read transaction.  The Rust caller passes a
zero-initialised `u8` buffer of length `buflen` which the transport
fills; hence the result is the oracle's data truncated/zero-padded to
`buflen` bytes, each reduced mod 256. -/
def busRead {E : Type} (i2c_addr : Nat) (register : Nat) (buflen : Nat)
    (s : BusState E) : Except E (List Nat) × BusState E :=
  match s.bus s.idx with
  | .ok data =>
      (.ok ((List.range buflen).map (fun i => data.getD i 0 % 256)),
        ⟨s.bus, s.idx + 1, s.trace ++ [Tx.writeRead i2c_addr (to_be_bytes register) buflen]⟩)
  | .err e =>
      (.error e,
        ⟨s.bus, s.idx + 1, s.trace ++ [Tx.writeRead i2c_addr (to_be_bytes register) buflen]⟩)

/-- Whether `b` is a UTF-8 continuation byte (10xxxxxx). -/
def utf8Cont (b : Nat) : Bool := 0x80 ≤ b && b ≤ 0xBF

/-- Validity of a byte sequence as UTF-8 (RFC 3629), the check performed
by `str::from_utf8` in `init`. -/
def isValidUtf8 : List Nat → Bool
  | [] => true
  | b :: rest =>
    if b ≤ 0x7F then isValidUtf8 rest
    else
      match rest with
      | [] => false
      | c1 :: rest1 =>
        if 0xC2 ≤ b && b ≤ 0xDF then utf8Cont c1 && isValidUtf8 rest1
        else
          match rest1 with
          | [] => false
          | c2 :: rest2 =>
            if b = 0xE0 then (0xA0 ≤ c1 && c1 ≤ 0xBF) && utf8Cont c2 && isValidUtf8 rest2
            else if 0xE1 ≤ b && b ≤ 0xEC then utf8Cont c1 && utf8Cont c2 && isValidUtf8 rest2
            else if b = 0xED then (0x80 ≤ c1 && c1 ≤ 0x9F) && utf8Cont c2 && isValidUtf8 rest2
            else if 0xEE ≤ b && b ≤ 0xEF then utf8Cont c1 && utf8Cont c2 && isValidUtf8 rest2
            else
              match rest2 with
              | [] => false
              | c3 :: rest3 =>
                if b = 0xF0 then
                  (0x90 ≤ c1 && c1 ≤ 0xBF) && utf8Cont c2 && utf8Cont c3 && isValidUtf8 rest3
                else if 0xF1 ≤ b && b ≤ 0xF3 then
                  utf8Cont c1 && utf8Cont c2 && utf8Cont c3 && isValidUtf8 rest3
                else if b = 0xF4 then
                  (0x80 ≤ c1 && c1 ≤ 0x8F) && utf8Cont c2 && utf8Cont c3 && isValidUtf8 rest3
                else false

/-- The byte sequence of the string literal `"911\0"`. -/
def productIdBytes : List Nat := [0x39, 0x31, 0x31, 0x00]

/-- `fn decode_point(buf: &[u8]) -> Point`.  The source asserts
`buf.len() >= 8` and every call site passes exactly 8 bytes; out-of-range
indices default to 0 here. -/
def decode_point (buf : List Nat) : Point :=
  { track_id := buf.getD 0 0
    x := from_le_bytes (buf.getD 1 0) (buf.getD 2 0)
    y := from_le_bytes (buf.getD 3 0) (buf.getD 4 0)
    area := from_le_bytes (buf.getD 5 0) (buf.getD 6 0) }

namespace Gt911Blocking

/-- `Gt911Blocking::init`: command-mode write, product-id read and check
(via `str::from_utf8` then comparison with `"911\0"`), status clear. -/
def init {E : Type} (i2c_addr : Nat) (s : BusState E) :
    DriverResult E Unit × BusState E :=
  match busWrite i2c_addr GT911_COMMAND_REG 0 s with
  | (.error e, s) => (.err (.I2C e), s)
  | (.ok _, s) =>
    match busRead i2c_addr GT911_PRODUCT_ID_REG 4 s with
    | (.error e, s) => (.err (.I2C e), s)
    | (.ok data, s) =>
      if isValidUtf8 data then
        if data = productIdBytes then
          match busWrite i2c_addr GT911_TOUCHPOINT_STATUS_REG 0 s with
          | (.error e, s) => (.err (.I2C e), s)
          | (.ok _, s) => (.ok (), s)
        else (.err .UnexpectedProductId, s)
      else (.err .UnexpectedProductId, s)

/-- `Gt911Blocking::get_num_touch_points`: one-byte status read, ready
flag is bit 7, count is bits 0-3. -/
def get_num_touch_points {E : Type} (i2c_addr : Nat) (s : BusState E) :
    DriverResult E Nat × BusState E :=
  match busRead i2c_addr GT911_TOUCHPOINT_STATUS_REG 1 s with
  | (.error e, s) => (.err (.I2C e), s)
  | (.ok data, s) =>
    let status := data.getD 0 0
    let ready := status &&& 0x80 > 0
    let num_touch_points := status &&& 0x0F
    if ready then (.ok num_touch_points, s) else (.err .NotReady, s)

/-- `Gt911Blocking::get_touch`. -/
def get_touch {E : Type} (i2c_addr : Nat) (s : BusState E) :
    DriverResult E (Option Point) × BusState E :=
  match get_num_touch_points i2c_addr s with
  | (.err e, s) => (.err e, s)
  | (.panicked, s) => (.panicked, s)
  | (.ok num_touch_points, s) =>
    if num_touch_points > 0 then
      match busRead i2c_addr GT911_TOUCHPOINT_1_REG TOUCHPOINT_ENTRY_LEN s with
      | (.error e, s) => (.err (.I2C e), s)
      | (.ok data, s) =>
        match busWrite i2c_addr GT911_TOUCHPOINT_STATUS_REG 0 s with
        | (.error e, s) => (.err (.I2C e), s)
        | (.ok _, s) => (.ok (some (decode_point data)), s)
    else
      match busWrite i2c_addr GT911_TOUCHPOINT_STATUS_REG 0 s with
      | (.error e, s) => (.err (.I2C e), s)
      | (.ok _, s) => (.ok none, s)

/-- `Gt911Blocking::get_multi_touch`.  The `assert!(num_touch_points <=
MAX_NUM_TOUCHPOINTS)` is the `panicked` branch; the `heapless::Vec` of
capacity 5 is a `List Point` (all pushes succeed since the count is at
most 5 past the assert). -/
def get_multi_touch {E : Type} (i2c_addr : Nat) (s : BusState E) :
    DriverResult E (List Point) × BusState E :=
  match get_num_touch_points i2c_addr s with
  | (.err e, s) => (.err e, s)
  | (.panicked, s) => (.panicked, s)
  | (.ok num_touch_points, s) =>
    if num_touch_points > 0 then
      if num_touch_points ≤ MAX_NUM_TOUCHPOINTS then
        match busRead i2c_addr GT911_TOUCHPOINT_1_REG
            (TOUCHPOINT_ENTRY_LEN * num_touch_points) s with
        | (.error e, s) => (.err (.I2C e), s)
        | (.ok data, s) =>
          let points := (List.range num_touch_points).map (fun n =>
            decode_point ((data.drop (n * TOUCHPOINT_ENTRY_LEN)).take TOUCHPOINT_ENTRY_LEN))
          match busWrite i2c_addr GT911_TOUCHPOINT_STATUS_REG 0 s with
          | (.error e, s) => (.err (.I2C e), s)
          | (.ok _, s) => (.ok points, s)
      else (.panicked, s)
    else
      match busWrite i2c_addr GT911_TOUCHPOINT_STATUS_REG 0 s with
      | (.error e, s) => (.err (.I2C e), s)
      | (.ok _, s) => (.ok [], s)

end Gt911Blocking

namespace Gt911

/-- `Gt911::init` (async): same protocol as the blocking variant, each
bus primitive awaited. -/
def init {E : Type} (i2c_addr : Nat) (s : BusState E) :
    DriverResult E Unit × BusState E :=
  match busWrite i2c_addr GT911_COMMAND_REG 0 s with
  | (.error e, s) => (.err (.I2C e), s)
  | (.ok _, s) =>
    match busRead i2c_addr GT911_PRODUCT_ID_REG 4 s with
    | (.error e, s) => (.err (.I2C e), s)
    | (.ok data, s) =>
      if isValidUtf8 data then
        if data = productIdBytes then
          match busWrite i2c_addr GT911_TOUCHPOINT_STATUS_REG 0 s with
          | (.error e, s) => (.err (.I2C e), s)
          | (.ok _, s) => (.ok (), s)
        else (.err .UnexpectedProductId, s)
      else (.err .UnexpectedProductId, s)

/-- `Gt911::get_num_touch_points` (async). -/
def get_num_touch_points {E : Type} (i2c_addr : Nat) (s : BusState E) :
    DriverResult E Nat × BusState E :=
  match busRead i2c_addr GT911_TOUCHPOINT_STATUS_REG 1 s with
  | (.error e, s) => (.err (.I2C e), s)
  | (.ok data, s) =>
    let status := data.getD 0 0
    let ready := status &&& 0x80 > 0
    let num_touch_points := status &&& 0x0F
    if ready then (.ok num_touch_points, s) else (.err .NotReady, s)

/-- `Gt911::get_touch` (async). -/
def get_touch {E : Type} (i2c_addr : Nat) (s : BusState E) :
    DriverResult E (Option Point) × BusState E :=
  match get_num_touch_points i2c_addr s with
  | (.err e, s) => (.err e, s)
  | (.panicked, s) => (.panicked, s)
  | (.ok num_touch_points, s) =>
    if num_touch_points > 0 then
      match busRead i2c_addr GT911_TOUCHPOINT_1_REG TOUCHPOINT_ENTRY_LEN s with
      | (.error e, s) => (.err (.I2C e), s)
      | (.ok data, s) =>
        match busWrite i2c_addr GT911_TOUCHPOINT_STATUS_REG 0 s with
        | (.error e, s) => (.err (.I2C e), s)
        | (.ok _, s) => (.ok (some (decode_point data)), s)
    else
      match busWrite i2c_addr GT911_TOUCHPOINT_STATUS_REG 0 s with
      | (.error e, s) => (.err (.I2C e), s)
      | (.ok _, s) => (.ok none, s)

/-- `Gt911::get_multi_touch` (async). -/
def get_multi_touch {E : Type} (i2c_addr : Nat) (s : BusState E) :
    DriverResult E (List Point) × BusState E :=
  match get_num_touch_points i2c_addr s with
  | (.err e, s) => (.err e, s)
  | (.panicked, s) => (.panicked, s)
  | (.ok num_touch_points, s) =>
    if num_touch_points > 0 then
      if num_touch_points ≤ MAX_NUM_TOUCHPOINTS then
        match busRead i2c_addr GT911_TOUCHPOINT_1_REG
            (TOUCHPOINT_ENTRY_LEN * num_touch_points) s with
        | (.error e, s) => (.err (.I2C e), s)
        | (.ok data, s) =>
          let points := (List.range num_touch_points).map (fun n =>
            decode_point ((data.drop (n * TOUCHPOINT_ENTRY_LEN)).take TOUCHPOINT_ENTRY_LEN))
          match busWrite i2c_addr GT911_TOUCHPOINT_STATUS_REG 0 s with
          | (.error e, s) => (.err (.I2C e), s)
          | (.ok _, s) => (.ok points, s)
      else (.panicked, s)
    else
      match busWrite i2c_addr GT911_TOUCHPOINT_STATUS_REG 0 s with
      | (.error e, s) => (.err (.I2C e), s)
      | (.ok _, s) => (.ok [], s)

end Gt911

/-- The initial bus state for a call: oracle `bus`, no transaction issued
yet. -/
def initState {E : Type} (bus : Nat → BusResp E) : BusState E := ⟨bus, 0, []⟩

/-- The status-read transaction issued by `get_num_touch_points`. -/
def statusTx (addr : Nat) : Tx := Tx.writeRead addr [0x81, 0x4E] 1

/-- The status-clear write frame: register 0x814E (big-endian), value 0. -/
def clearTx (addr : Nat) : Tx := Tx.write addr [0x81, 0x4E, 0]

/-- The touchpoint read transaction of `rlen` bytes at register 0x814F. -/
def pointTx (addr rlen : Nat) : Tx := Tx.writeRead addr [0x81, 0x4F] rlen

/-- The command-mode write issued first by `init`. -/
def cmdTx (addr : Nat) : Tx := Tx.write addr [0x80, 0x40, 0]

/-- The product-id read issued by `init`. -/
def idTx (addr : Nat) : Tx := Tx.writeRead addr [0x81, 0x40] 4

/-- The requested read length of a transaction (0 for plain writes). -/
def txReadLen : Tx → Nat
  | .write _ _ => 0
  | .writeRead _ _ rlen => rlen

/-- Little-endian encoding of a point record per the wire format: byte 0
track id, bytes 1-2 x (LE), bytes 3-4 y (LE), bytes 5-6 area (LE), byte 7
reserved (arbitrary). -/
def encode_point (track_id x y area b7 : Nat) : List Nat :=
  [track_id, x % 256, x / 256, y % 256, y / 256, area % 256, area / 256, b7]

/-- The trace contains exactly one status-clear write, as its last
transaction. -/
def issuesClearLast (addr : Nat) (tr : List Tx) : Prop :=
  ∃ pre, tr = pre ++ [clearTx addr] ∧ clearTx addr ∉ pre

/-- Status-clear discipline of one polling call's outcome: a success ends
in exactly one clear write, NotReady touches no clear write, and a
transport error admits at most a single clear write, as the final
(failing) transaction. -/
def clearDiscipline {E α : Type} (addr : Nat) (out : DriverResult E α × BusState E) : Prop :=
  ((∃ a, out.1 = .ok a) → issuesClearLast addr out.2.trace)
  ∧ (out.1 = .err .NotReady → clearTx addr ∉ out.2.trace)
  ∧ (∀ e, out.1 = .err (.I2C e) →
      clearTx addr ∉ out.2.trace ∨ issuesClearLast addr out.2.trace)

set_option maxRecDepth 8192 in
lemma byte_and128_testBit : ∀ s, s < 256 → ((s &&& 0x80 > 0) ↔ s.testBit 7 = true) := by
  decide

set_option maxRecDepth 8192 in
lemma byte_and15_mod : ∀ s, s < 256 → s &&& 0x0F = s % 16 := by
  decide

/-- Filling a Rust buffer of exactly the data's length with bytes below
256 reproduces the data. -/
lemma read_norm (l : List Nat) (h : ∀ b ∈ l, b < 256) :
    (List.range l.length).map (fun i => l[i]?.getD 0 % 256) = l := by
  induction l with
  | nil => simp
  | cons a t ih =>
    simp only [List.length_cons, List.range_succ_eq_map, List.map_cons, List.map_map,
      List.cons.injEq]
    constructor
    · simpa using Nat.mod_eq_of_lt (h a (by simp))
    · simpa [Function.comp_def, List.getElem?_cons_succ]
        using ih (fun b hb => h b (by simp [hb]))

/-- Slicing the concatenation of 8-byte records back into 8-byte chunks
recovers the records. -/
lemma flatten_chunks8 (recs : List (List Nat)) (h : ∀ r ∈ recs, r.length = 8) :
    (List.range recs.length).map (fun k => ((recs.flatten.drop (k * 8)).take 8)) = recs := by
  induction recs with
  | nil => simp
  | cons r rs ih =>
    have hr : r.length = 8 := h r (by simp)
    simp only [List.length_cons, List.range_succ_eq_map, List.map_cons, List.map_map,
      List.flatten_cons, List.cons.injEq]
    constructor
    · simp [List.take_append, hr]
    · have step : ∀ k : Nat, (((r ++ rs.flatten).drop ((k + 1) * 8)).take 8)
          = ((rs.flatten.drop (k * 8)).take 8) := by
        intro k
        have h8 : (k + 1) * 8 = r.length + k * 8 := by omega
        rw [h8, List.drop_append]
      simpa [Function.comp_def, Nat.succ_eq_add_one, step]
        using ih (fun b hb => h b (by simp [hb]))

lemma to_be_status : to_be_bytes GT911_TOUCHPOINT_STATUS_REG = [0x81, 0x4E] := by decide

lemma to_be_cmd : to_be_bytes GT911_COMMAND_REG = [0x80, 0x40] := by decide

lemma to_be_product : to_be_bytes GT911_PRODUCT_ID_REG = [0x81, 0x40] := by decide

lemma to_be_point1 : to_be_bytes GT911_TOUCHPOINT_1_REG = [0x81, 0x4F] := by decide

/-- Status poll on a ready byte: returns the low nibble as the count,
consuming exactly the one-byte status read. -/
lemma gnt_ready {E : Type} (addr : Nat) (bus : Nat → BusResp E) (s : Nat)
    (hs : s < 256) (h0 : bus 0 = .ok [s]) (hr : s &&& 0x80 > 0) :
    Gt911Blocking.get_num_touch_points addr (initState bus)
      = (.ok (s &&& 0x0F), ⟨bus, 1, [statusTx addr]⟩) := by
  simp [Gt911Blocking.get_num_touch_points, busRead, initState, h0, hr,
    to_be_status, statusTx, Nat.mod_eq_of_lt hs]

/-- Status poll on a byte with bit 7 clear: NotReady, consuming exactly
the one-byte status read. -/
lemma gnt_notready {E : Type} (addr : Nat) (bus : Nat → BusResp E) (s : Nat)
    (hs : s < 256) (h0 : bus 0 = .ok [s]) (hr : ¬ (s &&& 0x80 > 0)) :
    Gt911Blocking.get_num_touch_points addr (initState bus)
      = (.err .NotReady, ⟨bus, 1, [statusTx addr]⟩) := by
  simp [Gt911Blocking.get_num_touch_points, busRead, initState, h0, hr,
    to_be_status, statusTx, Nat.mod_eq_of_lt hs]

/-- Status poll when the status read itself fails on the bus. -/
lemma gnt_buserr {E : Type} (addr : Nat) (bus : Nat → BusResp E) (e : E)
    (h0 : bus 0 = .err e) :
    Gt911Blocking.get_num_touch_points addr (initState bus)
      = (.err (.I2C e), ⟨bus, 1, [statusTx addr]⟩) := by
  simp [Gt911Blocking.get_num_touch_points, busRead, initState, h0, to_be_status, statusTx]

/-- Status poll on an arbitrary successful one-byte read with the ready
bit set. -/
lemma gnt_ok_ready {E : Type} (addr : Nat) (bus : Nat → BusResp E) (d : List Nat)
    (h0 : bus 0 = .ok d) (hr : 0 < (d.getD 0 0 % 256) &&& 0x80) :
    Gt911Blocking.get_num_touch_points addr (initState bus)
      = (.ok ((d.getD 0 0 % 256) &&& 0x0F), ⟨bus, 1, [statusTx addr]⟩) := by
  rw [List.getD_eq_getElem?_getD] at hr
  simp [Gt911Blocking.get_num_touch_points, busRead, initState, h0, statusTx,
    to_be_status, hr]

/-- Status poll on an arbitrary successful one-byte read with the ready
bit clear. -/
lemma gnt_ok_notready {E : Type} (addr : Nat) (bus : Nat → BusResp E) (d : List Nat)
    (h0 : bus 0 = .ok d) (hr : ¬ 0 < (d.getD 0 0 % 256) &&& 0x80) :
    Gt911Blocking.get_num_touch_points addr (initState bus)
      = (.err .NotReady, ⟨bus, 1, [statusTx addr]⟩) := by
  rw [List.getD_eq_getElem?_getD] at hr
  simp [Gt911Blocking.get_num_touch_points, busRead, initState, h0, statusTx,
    to_be_status, hr]

/-- Exhaustive enumeration of the behaviour of the blocking get_touch over
every bus oracle: result and transaction trace in every branch. -/
lemma touch_enum {E : Type} (addr : Nat) (bus : Nat → BusResp E) :
    (∃ e, bus 0 = .err e
      ∧ Gt911Blocking.get_touch addr (initState bus)
          = (.err (.I2C e), ⟨bus, 1, [statusTx addr]⟩))
  ∨ (∃ d, bus 0 = .ok d ∧ (d.getD 0 0 % 256) &&& 0x80 = 0
      ∧ Gt911Blocking.get_touch addr (initState bus)
          = (.err .NotReady, ⟨bus, 1, [statusTx addr]⟩))
  ∨ (∃ d, bus 0 = .ok d ∧ 0 < (d.getD 0 0 % 256) &&& 0x80
      ∧ (d.getD 0 0 % 256) &&& 0x0F = 0
      ∧ ((∃ e, bus 1 = .err e
            ∧ Gt911Blocking.get_touch addr (initState bus)
                = (.err (.I2C e), ⟨bus, 2, [statusTx addr, clearTx addr]⟩))
        ∨ (∃ d1, bus 1 = .ok d1
            ∧ Gt911Blocking.get_touch addr (initState bus)
                = (.ok none, ⟨bus, 2, [statusTx addr, clearTx addr]⟩))))
  ∨ (∃ d, bus 0 = .ok d ∧ 0 < (d.getD 0 0 % 256) &&& 0x80
      ∧ 0 < (d.getD 0 0 % 256) &&& 0x0F
      ∧ ((∃ e, bus 1 = .err e
            ∧ Gt911Blocking.get_touch addr (initState bus)
                = (.err (.I2C e), ⟨bus, 2, [statusTx addr, pointTx addr 8]⟩))
        ∨ (∃ d1 e, bus 1 = .ok d1 ∧ bus 2 = .err e
            ∧ Gt911Blocking.get_touch addr (initState bus)
                = (.err (.I2C e),
                    ⟨bus, 3, [statusTx addr, pointTx addr 8, clearTx addr]⟩))
        ∨ (∃ d1 d2, bus 1 = .ok d1 ∧ bus 2 = .ok d2
            ∧ Gt911Blocking.get_touch addr (initState bus)
                = (.ok (some (decode_point ((List.range 8).map
                      (fun i => d1.getD i 0 % 256)))),
                    ⟨bus, 3, [statusTx addr, pointTx addr 8, clearTx addr]⟩)))) := by
  cases h0 : bus 0 with
  | err e =>
    exact Or.inl ⟨e, rfl, by simp [Gt911Blocking.get_touch, gnt_buserr addr bus e h0]⟩
  | ok d =>
    by_cases hr : 0 < (d.getD 0 0 % 256) &&& 0x80
    · have hgn := gnt_ok_ready addr bus d h0 hr
      by_cases hn : 0 < (d.getD 0 0 % 256) &&& 0x0F
      · refine Or.inr (Or.inr (Or.inr ⟨d, rfl, hr, hn, ?_⟩))
        rw [List.getD_eq_getElem?_getD] at hn
        cases h1 : bus 1 with
        | err e1 =>
          refine Or.inl ⟨e1, rfl, ?_⟩
          simp [Gt911Blocking.get_touch, hgn, hn, busRead, h1, to_be_point1,
            pointTx, statusTx, TOUCHPOINT_ENTRY_LEN]
        | ok d1 =>
          cases h2 : bus 2 with
          | err e2 =>
            refine Or.inr (Or.inl ⟨d1, e2, rfl, rfl, ?_⟩)
            simp [Gt911Blocking.get_touch, hgn, hn, busRead, busWrite, h1, h2,
              to_be_point1, to_be_status, pointTx, clearTx, statusTx,
              TOUCHPOINT_ENTRY_LEN]
          | ok d2 =>
            refine Or.inr (Or.inr ⟨d1, d2, rfl, rfl, ?_⟩)
            simp [Gt911Blocking.get_touch, hgn, hn, busRead, busWrite, h1, h2,
              to_be_point1, to_be_status, pointTx, clearTx, statusTx,
              TOUCHPOINT_ENTRY_LEN]
      · have hz : (d.getD 0 0 % 256) &&& 0x0F = 0 := by omega
        refine Or.inr (Or.inr (Or.inl ⟨d, rfl, hr, hz, ?_⟩))
        rw [List.getD_eq_getElem?_getD] at hz
        cases h1 : bus 1 with
        | err e1 =>
          refine Or.inl ⟨e1, rfl, ?_⟩
          simp [Gt911Blocking.get_touch, hgn, hz, busWrite, h1, to_be_status,
            clearTx, statusTx]
        | ok d1 =>
          refine Or.inr ⟨d1, rfl, ?_⟩
          simp [Gt911Blocking.get_touch, hgn, hz, busWrite, h1, to_be_status,
            clearTx, statusTx]
    · have hz : (d.getD 0 0 % 256) &&& 0x80 = 0 := by omega
      refine Or.inr (Or.inl ⟨d, rfl, hz, ?_⟩)
      simp [Gt911Blocking.get_touch, gnt_ok_notready addr bus d h0 hr]

/-- Exhaustive enumeration of the behaviour of the blocking
get_multi_touch over every bus oracle: result and transaction trace in
every branch, with the count bound recorded where a touchpoint read is
issued. -/
lemma multi_enum {E : Type} (addr : Nat) (bus : Nat → BusResp E) :
    (∃ e, bus 0 = .err e
      ∧ Gt911Blocking.get_multi_touch addr (initState bus)
          = (.err (.I2C e), ⟨bus, 1, [statusTx addr]⟩))
  ∨ (∃ d, bus 0 = .ok d ∧ (d.getD 0 0 % 256) &&& 0x80 = 0
      ∧ Gt911Blocking.get_multi_touch addr (initState bus)
          = (.err .NotReady, ⟨bus, 1, [statusTx addr]⟩))
  ∨ (∃ d, bus 0 = .ok d ∧ 0 < (d.getD 0 0 % 256) &&& 0x80
      ∧ (d.getD 0 0 % 256) &&& 0x0F = 0
      ∧ ((∃ e, bus 1 = .err e
            ∧ Gt911Blocking.get_multi_touch addr (initState bus)
                = (.err (.I2C e), ⟨bus, 2, [statusTx addr, clearTx addr]⟩))
        ∨ (∃ d1, bus 1 = .ok d1
            ∧ Gt911Blocking.get_multi_touch addr (initState bus)
                = (.ok [], ⟨bus, 2, [statusTx addr, clearTx addr]⟩))))
  ∨ (∃ d, bus 0 = .ok d ∧ 0 < (d.getD 0 0 % 256) &&& 0x80
      ∧ 5 < (d.getD 0 0 % 256) &&& 0x0F
      ∧ Gt911Blocking.get_multi_touch addr (initState bus)
          = (.panicked, ⟨bus, 1, [statusTx addr]⟩))
  ∨ (∃ d, bus 0 = .ok d ∧ 0 < (d.getD 0 0 % 256) &&& 0x80
      ∧ 0 < (d.getD 0 0 % 256) &&& 0x0F ∧ (d.getD 0 0 % 256) &&& 0x0F ≤ 5
      ∧ ((∃ e, bus 1 = .err e
            ∧ Gt911Blocking.get_multi_touch addr (initState bus)
                = (.err (.I2C e),
                    ⟨bus, 2, [statusTx addr,
                      pointTx addr (8 * ((d.getD 0 0 % 256) &&& 0x0F))]⟩))
        ∨ (∃ d1 e, bus 1 = .ok d1 ∧ bus 2 = .err e
            ∧ Gt911Blocking.get_multi_touch addr (initState bus)
                = (.err (.I2C e),
                    ⟨bus, 3, [statusTx addr,
                      pointTx addr (8 * ((d.getD 0 0 % 256) &&& 0x0F)),
                      clearTx addr]⟩))
        ∨ (∃ d1 d2 pts, bus 1 = .ok d1 ∧ bus 2 = .ok d2
            ∧ Gt911Blocking.get_multi_touch addr (initState bus)
                = (.ok pts,
                    ⟨bus, 3, [statusTx addr,
                      pointTx addr (8 * ((d.getD 0 0 % 256) &&& 0x0F)),
                      clearTx addr]⟩)))) := by
  cases h0 : bus 0 with
  | err e =>
    exact Or.inl ⟨e, rfl, by simp [Gt911Blocking.get_multi_touch, gnt_buserr addr bus e h0]⟩
  | ok d =>
    by_cases hr : 0 < (d.getD 0 0 % 256) &&& 0x80
    · have hgn := gnt_ok_ready addr bus d h0 hr
      by_cases hn : 0 < (d.getD 0 0 % 256) &&& 0x0F
      · by_cases h5 : (d.getD 0 0 % 256) &&& 0x0F ≤ 5
        · refine Or.inr (Or.inr (Or.inr (Or.inr ⟨d, rfl, hr, hn, h5, ?_⟩)))
          rw [List.getD_eq_getElem?_getD] at hn h5
          cases h1 : bus 1 with
          | err e1 =>
            refine Or.inl ⟨e1, rfl, ?_⟩
            simp [Gt911Blocking.get_multi_touch, hgn, hn, h5, busRead, h1,
              to_be_point1, pointTx, statusTx, TOUCHPOINT_ENTRY_LEN,
              MAX_NUM_TOUCHPOINTS]
          | ok d1 =>
            cases h2 : bus 2 with
            | err e2 =>
              refine Or.inr (Or.inl ⟨d1, e2, rfl, rfl, ?_⟩)
              simp [Gt911Blocking.get_multi_touch, hgn, hn, h5, busRead, busWrite,
                h1, h2, to_be_point1, to_be_status, pointTx, clearTx, statusTx,
                TOUCHPOINT_ENTRY_LEN, MAX_NUM_TOUCHPOINTS]
            | ok d2 =>
              refine Or.inr (Or.inr ⟨d1, d2,
                (List.range ((d.getD 0 0 % 256) &&& 0x0F)).map (fun n =>
                  decode_point ((((List.range (8 * ((d.getD 0 0 % 256) &&& 0x0F))).map
                    (fun i => d1.getD i 0 % 256)).drop (n * 8)).take 8)),
                rfl, rfl, ?_⟩)
              simp [Gt911Blocking.get_multi_touch, hgn, hn, h5, busRead, busWrite,
                h1, h2, to_be_point1, to_be_status, pointTx, clearTx, statusTx,
                TOUCHPOINT_ENTRY_LEN, MAX_NUM_TOUCHPOINTS]
        · have h5b : 5 < (d.getD 0 0 % 256) &&& 0x0F := by omega
          refine Or.inr (Or.inr (Or.inr (Or.inl ⟨d, rfl, hr, h5b, ?_⟩)))
          rw [List.getD_eq_getElem?_getD] at hn h5
          simp [Gt911Blocking.get_multi_touch, hgn, hn, h5, MAX_NUM_TOUCHPOINTS]
      · have hz : (d.getD 0 0 % 256) &&& 0x0F = 0 := by omega
        refine Or.inr (Or.inr (Or.inl ⟨d, rfl, hr, hz, ?_⟩))
        rw [List.getD_eq_getElem?_getD] at hz
        cases h1 : bus 1 with
        | err e1 =>
          refine Or.inl ⟨e1, rfl, ?_⟩
          simp [Gt911Blocking.get_multi_touch, hgn, hz, busWrite, h1, to_be_status,
            clearTx, statusTx]
        | ok d1 =>
          refine Or.inr ⟨d1, rfl, ?_⟩
          simp [Gt911Blocking.get_multi_touch, hgn, hz, busWrite, h1, to_be_status,
            clearTx, statusTx]
    · have hz : (d.getD 0 0 % 256) &&& 0x80 = 0 := by omega
      refine Or.inr (Or.inl ⟨d, rfl, hz, ?_⟩)
      simp [Gt911Blocking.get_multi_touch, gnt_ok_notready addr bus d h0 hr]

lemma cd_err_noclear {E α : Type} (addr : Nat) (bus : Nat → BusResp E) (e : E)
    (i : Nat) (tr : List Tx) (hni : clearTx addr ∉ tr) :
    clearDiscipline addr ((DriverResult.err (Error.I2C e) : DriverResult E α),
      ⟨bus, i, tr⟩) := by
  refine ⟨?_, ?_, ?_⟩
  · rintro ⟨a, ha⟩
    exact absurd ha (by simp)
  · intro h
    exact absurd h (by simp)
  · intro e2 _
    exact Or.inl hni

lemma cd_err_clearlast {E α : Type} (addr : Nat) (bus : Nat → BusResp E) (e : E)
    (i : Nat) (tr : List Tx) (hcl : issuesClearLast addr tr) :
    clearDiscipline addr ((DriverResult.err (Error.I2C e) : DriverResult E α),
      ⟨bus, i, tr⟩) := by
  refine ⟨?_, ?_, ?_⟩
  · rintro ⟨a, ha⟩
    exact absurd ha (by simp)
  · intro h
    exact absurd h (by simp)
  · intro e2 _
    exact Or.inr hcl

lemma cd_notready {E α : Type} (addr : Nat) (bus : Nat → BusResp E)
    (i : Nat) (tr : List Tx) (hni : clearTx addr ∉ tr) :
    clearDiscipline addr ((DriverResult.err .NotReady : DriverResult E α),
      ⟨bus, i, tr⟩) := by
  refine ⟨?_, ?_, ?_⟩
  · rintro ⟨a, ha⟩
    exact absurd ha (by simp)
  · intro _
    exact hni
  · intro e2 h
    exact absurd h (by simp)

lemma cd_ok {E α : Type} (addr : Nat) (bus : Nat → BusResp E) (a : α)
    (i : Nat) (tr : List Tx) (hcl : issuesClearLast addr tr) :
    clearDiscipline addr ((DriverResult.ok a : DriverResult E α), ⟨bus, i, tr⟩) := by
  refine ⟨?_, ?_, ?_⟩
  · intro _
    exact hcl
  · intro h
    exact absurd h (by simp)
  · intro e2 h
    exact absurd h (by simp)

lemma cd_panicked {E α : Type} (addr : Nat) (bus : Nat → BusResp E)
    (i : Nat) (tr : List Tx) :
    clearDiscipline addr ((DriverResult.panicked : DriverResult E α), ⟨bus, i, tr⟩) := by
  refine ⟨?_, ?_, ?_⟩
  · rintro ⟨a, ha⟩
    exact absurd ha (by simp)
  · intro h
    exact absurd h (by simp)
  · intro e2 h
    exact absurd h (by simp)

lemma clear_notin_status (addr : Nat) : clearTx addr ∉ [statusTx addr] := by
  simp [clearTx, statusTx]

lemma clear_notin_status_point (addr k : Nat) :
    clearTx addr ∉ [statusTx addr, pointTx addr k] := by
  simp [clearTx, statusTx, pointTx]

lemma clearlast_status_clear (addr : Nat) :
    issuesClearLast addr [statusTx addr, clearTx addr] :=
  ⟨[statusTx addr], rfl, by simp [clearTx, statusTx]⟩

lemma clearlast_status_point_clear (addr k : Nat) :
    issuesClearLast addr [statusTx addr, pointTx addr k, clearTx addr] :=
  ⟨[statusTx addr, pointTx addr k], rfl, by simp [clearTx, statusTx, pointTx]⟩

/-- The status-clear discipline of the blocking get_touch, over every bus
oracle. -/
lemma touch_clear_discipline {E : Type} (addr : Nat) (bus : Nat → BusResp E) :
    clearDiscipline addr (Gt911Blocking.get_touch addr (initState bus)) := by
  rcases touch_enum addr bus with ⟨e, h0, hout⟩ | ⟨d, h0, hz, hout⟩
    | ⟨d, h0, hr, hz, hcase⟩ | ⟨d, h0, hr, hn, hcase⟩
  · rw [hout]
    exact cd_err_noclear addr bus e 1 _ (clear_notin_status addr)
  · rw [hout]
    exact cd_notready addr bus 1 _ (clear_notin_status addr)
  · rcases hcase with ⟨e, h1, hout⟩ | ⟨d1, h1, hout⟩
    · rw [hout]
      exact cd_err_clearlast addr bus e 2 _ (clearlast_status_clear addr)
    · rw [hout]
      exact cd_ok addr bus none 2 _ (clearlast_status_clear addr)
  · rcases hcase with ⟨e, h1, hout⟩ | ⟨d1, e, h1, h2, hout⟩ | ⟨d1, d2, h1, h2, hout⟩
    · rw [hout]
      exact cd_err_noclear addr bus e 2 _ (clear_notin_status_point addr 8)
    · rw [hout]
      exact cd_err_clearlast addr bus e 3 _ (clearlast_status_point_clear addr 8)
    · rw [hout]
      exact cd_ok addr bus _ 3 _ (clearlast_status_point_clear addr 8)

/-- The status-clear discipline of the blocking get_multi_touch, over
every bus oracle. -/
lemma multi_clear_discipline {E : Type} (addr : Nat) (bus : Nat → BusResp E) :
    clearDiscipline addr (Gt911Blocking.get_multi_touch addr (initState bus)) := by
  rcases multi_enum addr bus with ⟨e, h0, hout⟩ | ⟨d, h0, hz, hout⟩
    | ⟨d, h0, hr, hz, hcase⟩ | ⟨d, h0, hr, h5b, hout⟩ | ⟨d, h0, hr, hn, h5, hcase⟩
  · rw [hout]
    exact cd_err_noclear addr bus e 1 _ (clear_notin_status addr)
  · rw [hout]
    exact cd_notready addr bus 1 _ (clear_notin_status addr)
  · rcases hcase with ⟨e, h1, hout⟩ | ⟨d1, h1, hout⟩
    · rw [hout]
      exact cd_err_clearlast addr bus e 2 _ (clearlast_status_clear addr)
    · rw [hout]
      exact cd_ok addr bus [] 2 _ (clearlast_status_clear addr)
  · rw [hout]
    exact cd_panicked addr bus 1 _
  · rcases hcase with ⟨e, h1, hout⟩ | ⟨d1, e, h1, h2, hout⟩ | ⟨d1, d2, pts, h1, h2, hout⟩
    · rw [hout]
      exact cd_err_noclear addr bus e 2 _
        (clear_notin_status_point addr (8 * ((d.getD 0 0 % 256) &&& 0x0F)))
    · rw [hout]
      exact cd_err_clearlast addr bus e 3 _
        (clearlast_status_point_clear addr (8 * ((d.getD 0 0 % 256) &&& 0x0F)))
    · rw [hout]
      exact cd_ok addr bus pts 3 _
        (clearlast_status_point_clear addr (8 * ((d.getD 0 0 % 256) &&& 0x0F)))

/-- C1 (amended): every Ok-returning poll issues exactly one status-clear
write, as its last transaction; every NotReady return issues none; every
transport-error return issues none, except that the clear write itself can
be the final, failing transaction.  Stated for all four polling entry
points over every bus oracle. -/
theorem C1_clear_write_discipline {E : Type} (i2c_addr : Nat) (bus : Nat → BusResp E) :
    clearDiscipline i2c_addr (Gt911Blocking.get_touch i2c_addr (initState bus))
    ∧ clearDiscipline i2c_addr (Gt911Blocking.get_multi_touch i2c_addr (initState bus))
    ∧ clearDiscipline i2c_addr (Gt911.get_touch i2c_addr (initState bus))
    ∧ clearDiscipline i2c_addr (Gt911.get_multi_touch i2c_addr (initState bus)) :=
  ⟨touch_clear_discipline i2c_addr bus, multi_clear_discipline i2c_addr bus,
   touch_clear_discipline i2c_addr bus, multi_clear_discipline i2c_addr bus⟩

/-- Witness for C1 (amended): on a ready, zero-point status byte the
blocking get_touch ends in exactly one status-clear write. -/
theorem C1_clear_write_discipline_witness :
    issuesClearLast 0x5D
      (Gt911Blocking.get_touch 0x5D
        (initState (fun _ => BusResp.ok (E := Unit) [0x80]))).2.trace := by
  have h := (C1_clear_write_discipline 0x5D (fun _ => BusResp.ok (E := Unit) [0x80])).1
  exact h.1 ⟨none, by decide⟩

/-- Counterexample to C1 as stated: when the status-clear write itself
fails on the bus, the call returns Err(I2C(_)) yet a status-clear write
was issued (it is the failing final transaction). -/
theorem C1_counterexample :
    (Gt911Blocking.get_touch 0x5D (initState (fun i =>
        if i = 0 then BusResp.ok [0x80] else BusResp.err ()))).1
      = DriverResult.err (Error.I2C ())
    ∧ clearTx 0x5D ∈ (Gt911Blocking.get_touch 0x5D (initState (fun i =>
        if i = 0 then BusResp.ok [0x80] else BusResp.err ()))).2.trace := by
  constructor
  · decide
  · decide

/-- C7: get_multi_touch never issues a read transaction longer than 40
bytes, over every bus oracle; and on a ready status byte whose count
field exceeds 5 it stops (panics) right after the status read, before any
touchpoint read. -/
theorem C7_multi_read_bounded {E : Type} (i2c_addr : Nat) (bus : Nat → BusResp E) :
    (∀ tx ∈ (Gt911Blocking.get_multi_touch i2c_addr (initState bus)).2.trace,
        txReadLen tx ≤ 40)
    ∧ (∀ tx ∈ (Gt911.get_multi_touch i2c_addr (initState bus)).2.trace,
        txReadLen tx ≤ 40)
    ∧ (∀ s, s < 256 → s.testBit 7 = true → 5 < s % 16 → bus 0 = .ok [s] →
        Gt911Blocking.get_multi_touch i2c_addr (initState bus)
          = (.panicked, ⟨bus, 1, [statusTx i2c_addr]⟩)
        ∧ Gt911.get_multi_touch i2c_addr (initState bus)
          = (.panicked, ⟨bus, 1, [statusTx i2c_addr]⟩)) := by
  have hbound : ∀ tx ∈ (Gt911Blocking.get_multi_touch i2c_addr (initState bus)).2.trace,
      txReadLen tx ≤ 40 := by
    rcases multi_enum i2c_addr bus with ⟨e, h0, hout⟩ | ⟨d, h0, hz, hout⟩
      | ⟨d, h0, hr, hz, hcase⟩ | ⟨d, h0, hr, h5b, hout⟩ | ⟨d, h0, hr, hn, h5, hcase⟩
    · rw [hout]
      intro tx htx
      simp only [List.mem_singleton] at htx
      simp [htx, statusTx, txReadLen]
    · rw [hout]
      intro tx htx
      simp only [List.mem_singleton] at htx
      simp [htx, statusTx, txReadLen]
    · rcases hcase with ⟨e, h1, hout⟩ | ⟨d1, h1, hout⟩ <;>
        · rw [hout]
          intro tx htx
          simp only [List.mem_cons, List.not_mem_nil, or_false] at htx
          rcases htx with rfl | rfl <;> simp [statusTx, clearTx, txReadLen]
    · rw [hout]
      intro tx htx
      simp only [List.mem_singleton] at htx
      simp [htx, statusTx, txReadLen]
    · have hcnt : (d.getD 0 0 % 256) &&& 0x0F ≤ 5 := h5
      rw [List.getD_eq_getElem?_getD] at hcnt
      rcases hcase with ⟨e, h1, hout⟩ | ⟨d1, e, h1, h2, hout⟩ | ⟨d1, d2, pts, h1, h2, hout⟩
      · rw [hout]
        intro tx htx
        simp only [List.mem_cons, List.not_mem_nil, or_false] at htx
        rcases htx with rfl | rfl <;> simp [statusTx, pointTx, txReadLen] <;> omega
      · rw [hout]
        intro tx htx
        simp only [List.mem_cons, List.not_mem_nil, or_false] at htx
        rcases htx with rfl | rfl | rfl <;>
          simp [statusTx, pointTx, clearTx, txReadLen] <;> omega
      · rw [hout]
        intro tx htx
        simp only [List.mem_cons, List.not_mem_nil, or_false] at htx
        rcases htx with rfl | rfl | rfl <;>
          simp [statusTx, pointTx, clearTx, txReadLen] <;> omega
  refine ⟨hbound, hbound, ?_⟩
  intro s hs h7 h5 h0
  have hr : s &&& 0x80 > 0 := (byte_and128_testBit s hs).mpr h7
  have hgn := gnt_ready i2c_addr bus s hs h0 hr
  rw [byte_and15_mod s hs] at hgn
  have hpos : 0 < s % 16 := by omega
  have hnle : ¬ (s % 16 ≤ 5) := by omega
  have h : Gt911Blocking.get_multi_touch i2c_addr (initState bus)
      = (.panicked, ⟨bus, 1, [statusTx i2c_addr]⟩) := by
    simp [Gt911Blocking.get_multi_touch, hgn, hpos, hnle, MAX_NUM_TOUCHPOINTS]
  exact ⟨h, h⟩

/-- Witness for C7: a trace transaction of the blocking get_multi_touch
on 3 ready points is read-bounded by 40; and status byte 0x86 (ready,
count 6) panics right after the status read. -/
theorem C7_multi_read_bounded_witness :
    txReadLen (statusTx 0x5D) ≤ 40
    ∧ Gt911Blocking.get_multi_touch 0x5D
        (initState (fun _ => BusResp.ok (E := Unit) [0x86]))
      = (.panicked, ⟨fun _ => BusResp.ok [0x86], 1, [statusTx 0x5D]⟩) :=
  ⟨(C7_multi_read_bounded 0x5D (fun _ => BusResp.ok (E := Unit) [0x86])).1
      (statusTx 0x5D) (by decide),
   ((C7_multi_read_bounded 0x5D (fun _ => BusResp.ok (E := Unit) [0x86])).2.2
      0x86 (by decide) (by decide) (by decide) rfl).1⟩

/-- C10: on a ready status byte whose count field is 6..15,
get_multi_touch panics (failed assert) rather than returning an error,
while get_touch performs no upper-bound check: it reads one 8-byte record
and returns it without panicking. -/
theorem C10_overcount_asymmetry {E : Type} (i2c_addr : Nat) (bus : Nat → BusResp E)
    (s : Nat) (rec d2 : List Nat) (hs : s < 256) (h7 : s.testBit 7 = true)
    (h6 : 6 ≤ s % 16) (hrlen : rec.length = 8) (hrb : ∀ b ∈ rec, b < 256)
    (h0 : bus 0 = .ok [s]) (h1 : bus 1 = .ok rec) (h2 : bus 2 = .ok d2) :
    Gt911Blocking.get_multi_touch i2c_addr (initState bus)
      = (.panicked, ⟨bus, 1, [statusTx i2c_addr]⟩)
    ∧ Gt911.get_multi_touch i2c_addr (initState bus)
      = (.panicked, ⟨bus, 1, [statusTx i2c_addr]⟩)
    ∧ Gt911Blocking.get_touch i2c_addr (initState bus)
      = (.ok (some (decode_point rec)),
          ⟨bus, 3, [statusTx i2c_addr, pointTx i2c_addr 8, clearTx i2c_addr]⟩)
    ∧ Gt911.get_touch i2c_addr (initState bus)
      = (.ok (some (decode_point rec)),
          ⟨bus, 3, [statusTx i2c_addr, pointTx i2c_addr 8, clearTx i2c_addr]⟩) := by
  have hr : s &&& 0x80 > 0 := (byte_and128_testBit s hs).mpr h7
  have hgn := gnt_ready i2c_addr bus s hs h0 hr
  rw [byte_and15_mod s hs] at hgn
  have hpos : 0 < s % 16 := by omega
  have hnle : ¬ (s % 16 ≤ 5) := by omega
  have hnorm : (List.range 8).map (fun i => rec[i]?.getD 0 % 256) = rec := by
    rw [← hrlen]
    exact read_norm rec hrb
  have hm : Gt911Blocking.get_multi_touch i2c_addr (initState bus)
      = (.panicked, ⟨bus, 1, [statusTx i2c_addr]⟩) := by
    simp [Gt911Blocking.get_multi_touch, hgn, hpos, hnle, MAX_NUM_TOUCHPOINTS]
  have ht : Gt911Blocking.get_touch i2c_addr (initState bus)
      = (.ok (some (decode_point rec)),
          ⟨bus, 3, [statusTx i2c_addr, pointTx i2c_addr 8, clearTx i2c_addr]⟩) := by
    simp [Gt911Blocking.get_touch, hgn, hpos, busRead, busWrite, h1, h2,
      TOUCHPOINT_ENTRY_LEN, to_be_point1, to_be_status, pointTx, clearTx, statusTx, hnorm]
  exact ⟨hm, hm, ht, ht⟩

/-- Witness for C10: status byte 0x86 (ready, count 6) panics
get_multi_touch but get_touch succeeds with the decoded first record. -/
theorem C10_overcount_asymmetry_witness :
    Gt911Blocking.get_multi_touch 0x5D (initState (fun i =>
        if i = 0 then BusResp.ok (E := Unit) [0x86]
        else BusResp.ok [9, 1, 1, 2, 2, 3, 3, 0]))
      = (.panicked, ⟨fun i => if i = 0 then BusResp.ok [0x86]
          else BusResp.ok [9, 1, 1, 2, 2, 3, 3, 0], 1, [statusTx 0x5D]⟩)
    ∧ Gt911Blocking.get_touch 0x5D (initState (fun i =>
        if i = 0 then BusResp.ok (E := Unit) [0x86]
        else BusResp.ok [9, 1, 1, 2, 2, 3, 3, 0]))
      = (.ok (some ⟨9, 257, 514, 771⟩),
          ⟨fun i => if i = 0 then BusResp.ok [0x86]
            else BusResp.ok [9, 1, 1, 2, 2, 3, 3, 0], 3,
            [statusTx 0x5D, pointTx 0x5D 8, clearTx 0x5D]⟩) := by
  have h := C10_overcount_asymmetry 0x5D (fun i =>
      if i = 0 then BusResp.ok (E := Unit) [0x86]
      else BusResp.ok [9, 1, 1, 2, 2, 3, 3, 0])
    0x86 [9, 1, 1, 2, 2, 3, 3, 0] [9, 1, 1, 2, 2, 3, 3, 0]
    (by decide) (by decide) (by decide) (by decide) (by decide) rfl rfl rfl
  exact ⟨h.1, by simpa [decode_point, from_le_bytes] using h.2.2.1⟩

/-- C2: on a status byte with bit 7 clear, all four polling entry points
return NotReady and the status read is the only transaction; on a status
byte with bit 7 set, the poll succeeds and yields bits 0-3 of the byte as
the point count. -/
theorem C2_status_decode {E : Type} (i2c_addr : Nat) (bus : Nat → BusResp E) (s : Nat)
    (hs : s < 256) (h0 : bus 0 = .ok [s]) :
    (s.testBit 7 = false →
      Gt911Blocking.get_touch i2c_addr (initState bus)
        = (.err .NotReady, ⟨bus, 1, [statusTx i2c_addr]⟩)
      ∧ Gt911Blocking.get_multi_touch i2c_addr (initState bus)
        = (.err .NotReady, ⟨bus, 1, [statusTx i2c_addr]⟩)
      ∧ Gt911.get_touch i2c_addr (initState bus)
        = (.err .NotReady, ⟨bus, 1, [statusTx i2c_addr]⟩)
      ∧ Gt911.get_multi_touch i2c_addr (initState bus)
        = (.err .NotReady, ⟨bus, 1, [statusTx i2c_addr]⟩))
    ∧ (s.testBit 7 = true →
      Gt911Blocking.get_num_touch_points i2c_addr (initState bus)
        = (.ok (s % 16), ⟨bus, 1, [statusTx i2c_addr]⟩)
      ∧ Gt911.get_num_touch_points i2c_addr (initState bus)
        = (.ok (s % 16), ⟨bus, 1, [statusTx i2c_addr]⟩)) := by
  constructor
  · intro h7
    have hr : ¬ (s &&& 0x80 > 0) := by
      rw [byte_and128_testBit s hs, h7]
      decide
    have hgn := gnt_notready i2c_addr bus s hs h0 hr
    have h1 : Gt911Blocking.get_touch i2c_addr (initState bus)
        = (.err .NotReady, ⟨bus, 1, [statusTx i2c_addr]⟩) := by
      simp [Gt911Blocking.get_touch, hgn]
    have h2 : Gt911Blocking.get_multi_touch i2c_addr (initState bus)
        = (.err .NotReady, ⟨bus, 1, [statusTx i2c_addr]⟩) := by
      simp [Gt911Blocking.get_multi_touch, hgn]
    exact ⟨h1, h2, h1, h2⟩
  · intro h7
    have hr : s &&& 0x80 > 0 := (byte_and128_testBit s hs).mpr h7
    have hgn := gnt_ready i2c_addr bus s hs h0 hr
    rw [byte_and15_mod s hs] at hgn
    exact ⟨hgn, hgn⟩

/-- Witness for C2: status byte 0x03 (bit 7 clear) yields NotReady with
only the status read issued; status byte 0x83 yields count 3. -/
theorem C2_status_decode_witness :
    (Gt911Blocking.get_touch 0x5D (initState (fun _ => BusResp.ok (E := Unit) [0x03]))
      = (.err .NotReady, ⟨fun _ => BusResp.ok [0x03], 1, [statusTx 0x5D]⟩))
    ∧ (Gt911Blocking.get_num_touch_points 0x5D
        (initState (fun _ => BusResp.ok (E := Unit) [0x83]))
      = (.ok 3, ⟨fun _ => BusResp.ok [0x83], 1, [statusTx 0x5D]⟩)) :=
  ⟨((C2_status_decode 0x5D (fun _ => BusResp.ok [0x03]) 0x03 (by decide) rfl).1
      (by decide)).1,
   ((C2_status_decode 0x5D (fun _ => BusResp.ok [0x83]) 0x83 (by decide) rfl).2
      (by decide)).1⟩

/-- C3: the point decoder takes track_id from byte 0, x little-endian from
bytes 1-2, y from bytes 3-4, area from bytes 5-6, and ignores byte 7;
consequently decoding the little-endian encoding of any in-range fields,
with any reserved byte, round-trips to the same fields. -/
theorem C3_decode_point_roundtrip (buf : List Nat) (t x y a b7 : Nat)
    (ht : t < 256) (hx : x < 65536) (hy : y < 65536) (ha : a < 65536) :
    decode_point buf
      = ⟨buf.getD 0 0, buf.getD 1 0 + 256 * buf.getD 2 0,
         buf.getD 3 0 + 256 * buf.getD 4 0, buf.getD 5 0 + 256 * buf.getD 6 0⟩
    ∧ decode_point (encode_point t x y a b7) = ⟨t, x, y, a⟩ := by
  constructor
  · simp [decode_point, from_le_bytes]
  · simp only [decode_point, encode_point, from_le_bytes, List.getD_cons_zero,
      List.getD_cons_succ, Point.mk.injEq, true_and]
    omega

/-- Witness for C3 at a concrete record. -/
theorem C3_decode_point_roundtrip_witness :
    decode_point (encode_point 3 4660 22136 2475 255) = ⟨3, 4660, 22136, 2475⟩ :=
  (C3_decode_point_roundtrip [] 3 4660 22136 2475 255 (by decide) (by decide)
    (by decide) (by decide)).2

/-- C4: on a ready status byte, when the count field is positive,
get_touch issues exactly one 8-byte read at register 0x814F and returns
the decoded record; when the count field is zero it issues no touchpoint
read and returns none.  Stated for both controllers. -/
theorem C4_get_touch_single {E : Type} (i2c_addr : Nat) (bus : Nat → BusResp E)
    (s : Nat) (rec d2 : List Nat) (hs : s < 256) (h7 : s.testBit 7 = true)
    (hrlen : rec.length = 8) (hrb : ∀ b ∈ rec, b < 256)
    (h0 : bus 0 = .ok [s]) (h1 : bus 1 = .ok rec) (h2 : bus 2 = .ok d2) :
    (s % 16 > 0 →
      Gt911Blocking.get_touch i2c_addr (initState bus)
        = (.ok (some (decode_point rec)),
            ⟨bus, 3, [statusTx i2c_addr, pointTx i2c_addr 8, clearTx i2c_addr]⟩)
      ∧ Gt911.get_touch i2c_addr (initState bus)
        = (.ok (some (decode_point rec)),
            ⟨bus, 3, [statusTx i2c_addr, pointTx i2c_addr 8, clearTx i2c_addr]⟩))
    ∧ (s % 16 = 0 →
      Gt911Blocking.get_touch i2c_addr (initState bus)
        = (.ok none, ⟨bus, 2, [statusTx i2c_addr, clearTx i2c_addr]⟩)
      ∧ Gt911.get_touch i2c_addr (initState bus)
        = (.ok none, ⟨bus, 2, [statusTx i2c_addr, clearTx i2c_addr]⟩)) := by
  have hr : s &&& 0x80 > 0 := (byte_and128_testBit s hs).mpr h7
  have hgn := gnt_ready i2c_addr bus s hs h0 hr
  rw [byte_and15_mod s hs] at hgn
  have hnorm : (List.range 8).map (fun i => rec[i]?.getD 0 % 256) = rec := by
    rw [← hrlen]
    exact read_norm rec hrb
  constructor
  · intro hpos
    have h : Gt911Blocking.get_touch i2c_addr (initState bus)
        = (.ok (some (decode_point rec)),
            ⟨bus, 3, [statusTx i2c_addr, pointTx i2c_addr 8, clearTx i2c_addr]⟩) := by
      simp [Gt911Blocking.get_touch, hgn, hpos, busRead, busWrite, h1, h2,
        TOUCHPOINT_ENTRY_LEN, to_be_point1, to_be_status, pointTx, clearTx, statusTx, hnorm]
    exact ⟨h, h⟩
  · intro hzero
    have h : Gt911Blocking.get_touch i2c_addr (initState bus)
        = (.ok none, ⟨bus, 2, [statusTx i2c_addr, clearTx i2c_addr]⟩) := by
      simp [Gt911Blocking.get_touch, hgn, hzero, busWrite, h1,
        to_be_status, clearTx, statusTx]
    exact ⟨h, h⟩

/-- Witness for C4: status 0x81 with one record yields that decoded point
after a single 8-byte read; status 0x80 yields none with no point read. -/
theorem C4_get_touch_single_witness :
    (Gt911Blocking.get_touch 0x5D (initState (fun i =>
        if i = 0 then BusResp.ok (E := Unit) [0x81]
        else BusResp.ok [7, 0x10, 0x01, 0x20, 0x02, 0x30, 0x03, 0xFF]))
      = (.ok (some ⟨7, 0x0110, 0x0220, 0x0330⟩),
          ⟨fun i => if i = 0 then BusResp.ok [0x81]
              else BusResp.ok [7, 0x10, 0x01, 0x20, 0x02, 0x30, 0x03, 0xFF], 3,
            [statusTx 0x5D, pointTx 0x5D 8, clearTx 0x5D]⟩))
    ∧ (Gt911Blocking.get_touch 0x5D (initState (fun i =>
        if i = 0 then BusResp.ok (E := Unit) [0x80] else BusResp.ok [0, 0, 0, 0, 0, 0, 0, 0]))
      = (.ok none, ⟨fun i => if i = 0 then BusResp.ok [0x80]
          else BusResp.ok [0, 0, 0, 0, 0, 0, 0, 0], 2, [statusTx 0x5D, clearTx 0x5D]⟩)) :=
  ⟨((C4_get_touch_single 0x5D _ 0x81 [7, 0x10, 0x01, 0x20, 0x02, 0x30, 0x03, 0xFF]
      [7, 0x10, 0x01, 0x20, 0x02, 0x30, 0x03, 0xFF] (by decide) (by decide) (by decide)
      (by decide) rfl rfl rfl).1 (by decide)).1,
   ((C4_get_touch_single 0x5D _ 0x80 [0, 0, 0, 0, 0, 0, 0, 0] [0, 0, 0, 0, 0, 0, 0, 0]
      (by decide) (by decide) (by decide)
      (by decide) rfl rfl rfl).2 (by decide)).1⟩

/-- C5: on a ready status byte with count c between 1 and 5 followed by c
well-formed 8-byte records, get_multi_touch issues a single read of
exactly 8*c bytes at register 0x814F and returns the c records decoded in
order; with count 0 it issues no touchpoint read and returns the empty
list.  Stated for both controllers. -/
theorem C5_get_multi_touch {E : Type} (i2c_addr : Nat) (bus : Nat → BusResp E)
    (s : Nat) (recs : List (List Nat)) (d2 : List Nat)
    (hs : s < 256) (h7 : s.testBit 7 = true) (hle : s % 16 ≤ 5)
    (hcount : recs.length = s % 16) (hrlen : ∀ r ∈ recs, r.length = 8)
    (hrb : ∀ r ∈ recs, ∀ b ∈ r, b < 256)
    (h0 : bus 0 = .ok [s]) (h1 : bus 1 = .ok recs.flatten) (h2 : bus 2 = .ok d2) :
    (s % 16 > 0 →
      Gt911Blocking.get_multi_touch i2c_addr (initState bus)
        = (.ok (recs.map decode_point),
            ⟨bus, 3, [statusTx i2c_addr, pointTx i2c_addr (8 * (s % 16)),
              clearTx i2c_addr]⟩)
      ∧ Gt911.get_multi_touch i2c_addr (initState bus)
        = (.ok (recs.map decode_point),
            ⟨bus, 3, [statusTx i2c_addr, pointTx i2c_addr (8 * (s % 16)),
              clearTx i2c_addr]⟩))
    ∧ (s % 16 = 0 →
      Gt911Blocking.get_multi_touch i2c_addr (initState bus)
        = (.ok [], ⟨bus, 2, [statusTx i2c_addr, clearTx i2c_addr]⟩)
      ∧ Gt911.get_multi_touch i2c_addr (initState bus)
        = (.ok [], ⟨bus, 2, [statusTx i2c_addr, clearTx i2c_addr]⟩)) := by
  have hr : s &&& 0x80 > 0 := (byte_and128_testBit s hs).mpr h7
  have hgn := gnt_ready i2c_addr bus s hs h0 hr
  rw [byte_and15_mod s hs] at hgn
  have hflatlen : recs.flatten.length = 8 * (s % 16) := by
    rw [List.length_flatten]
    have : recs.map List.length = List.replicate recs.length 8 :=
      List.eq_replicate_iff.mpr ⟨by simp, by simpa using hrlen⟩
    rw [this, List.sum_replicate, smul_eq_mul, hcount]
    omega
  have hflatb : ∀ b ∈ recs.flatten, b < 256 := by
    intro b hb
    rcases List.mem_flatten.mp hb with ⟨r, hrmem, hbr⟩
    exact hrb r hrmem b hbr
  have hnorm : (List.range (8 * (s % 16))).map (fun i => recs.flatten[i]?.getD 0 % 256)
      = recs.flatten := by
    rw [← hflatlen]
    exact read_norm recs.flatten hflatb
  have hchunks : (List.range (s % 16)).map
      (fun k => decode_point ((recs.flatten.drop (k * 8)).take 8))
      = recs.map decode_point := by
    rw [← hcount]
    have hcomp : (fun k => decode_point ((recs.flatten.drop (k * 8)).take 8))
        = decode_point ∘ (fun k => ((recs.flatten.drop (k * 8)).take 8)) := rfl
    rw [hcomp, ← List.map_map, flatten_chunks8 recs hrlen]
  constructor
  · intro hpos
    have h : Gt911Blocking.get_multi_touch i2c_addr (initState bus)
        = (.ok (recs.map decode_point),
            ⟨bus, 3, [statusTx i2c_addr, pointTx i2c_addr (8 * (s % 16)),
              clearTx i2c_addr]⟩) := by
      simp [Gt911Blocking.get_multi_touch, hgn, hpos, hle, busRead, busWrite, h1, h2,
        TOUCHPOINT_ENTRY_LEN, MAX_NUM_TOUCHPOINTS, to_be_point1, to_be_status,
        pointTx, clearTx, statusTx, hnorm, hchunks, Nat.mul_comm (s % 16) 8]
    exact ⟨h, h⟩
  · intro hzero
    have h : Gt911Blocking.get_multi_touch i2c_addr (initState bus)
        = (.ok [], ⟨bus, 2, [statusTx i2c_addr, clearTx i2c_addr]⟩) := by
      simp [Gt911Blocking.get_multi_touch, hgn, hzero, busWrite, h1,
        to_be_status, clearTx, statusTx]
    exact ⟨h, h⟩

/-- Witness for C5: status 0x83 with three records yields the three
decoded points after a single 24-byte read; status 0x80 yields the empty
list. -/
theorem C5_get_multi_touch_witness :
    (Gt911Blocking.get_multi_touch 0x5D (initState (fun i =>
        if i = 0 then BusResp.ok (E := Unit) [0x83]
        else BusResp.ok ([1, 0x10, 0x01, 0x20, 0x02, 0x30, 0x03, 0]
          ++ [2, 0x11, 0x01, 0x21, 0x02, 0x31, 0x03, 0]
          ++ [3, 0x12, 0x01, 0x22, 0x02, 0x32, 0x03, 0])))
      = (.ok [⟨1, 0x0110, 0x0220, 0x0330⟩, ⟨2, 0x0111, 0x0221, 0x0331⟩,
              ⟨3, 0x0112, 0x0222, 0x0332⟩],
          ⟨fun i => if i = 0 then BusResp.ok [0x83]
              else BusResp.ok ([1, 0x10, 0x01, 0x20, 0x02, 0x30, 0x03, 0]
                ++ [2, 0x11, 0x01, 0x21, 0x02, 0x31, 0x03, 0]
                ++ [3, 0x12, 0x01, 0x22, 0x02, 0x32, 0x03, 0]), 3,
            [statusTx 0x5D, pointTx 0x5D 24, clearTx 0x5D]⟩))
    ∧ (Gt911Blocking.get_multi_touch 0x5D (initState (fun i =>
        if i = 0 then BusResp.ok (E := Unit) [0x80] else BusResp.ok []))
      = (.ok [], ⟨fun i => if i = 0 then BusResp.ok [0x80] else BusResp.ok [], 2,
          [statusTx 0x5D, clearTx 0x5D]⟩)) :=
  ⟨((C5_get_multi_touch 0x5D _ 0x83
      [[1, 0x10, 0x01, 0x20, 0x02, 0x30, 0x03, 0],
       [2, 0x11, 0x01, 0x21, 0x02, 0x31, 0x03, 0],
       [3, 0x12, 0x01, 0x22, 0x02, 0x32, 0x03, 0]]
      ([1, 0x10, 0x01, 0x20, 0x02, 0x30, 0x03, 0]
        ++ [2, 0x11, 0x01, 0x21, 0x02, 0x31, 0x03, 0]
        ++ [3, 0x12, 0x01, 0x22, 0x02, 0x32, 0x03, 0])
      (by decide) (by decide) (by decide) (by decide) (by decide) (by decide)
      rfl rfl rfl).1 (by decide)).1,
   ((C5_get_multi_touch 0x5D _ 0x80 [] []
      (by decide) (by decide) (by decide) (by decide) (by decide) (by decide)
      rfl rfl rfl).2 (by decide)).1⟩

/-- C6: init proceeds past the identity check exactly when the 4 bytes
read from the product-id register are 0x39 0x31 0x31 0x00; on any other
4-byte value (valid UTF-8 or not) it returns UnexpectedProductId having
issued only the command write and the identity read, in particular no
status-clear write. -/
theorem C6_init_identity {E : Type} (i2c_addr : Nat) (bus : Nat → BusResp E)
    (data d0 d2 : List Nat) (hlen : data.length = 4) (hb : ∀ b ∈ data, b < 256)
    (h0 : bus 0 = .ok d0) (h1 : bus 1 = .ok data) (h2 : bus 2 = .ok d2) :
    (data = productIdBytes →
      Gt911Blocking.init i2c_addr (initState bus)
        = (.ok (), ⟨bus, 3, [cmdTx i2c_addr, idTx i2c_addr, clearTx i2c_addr]⟩)
      ∧ Gt911.init i2c_addr (initState bus)
        = (.ok (), ⟨bus, 3, [cmdTx i2c_addr, idTx i2c_addr, clearTx i2c_addr]⟩))
    ∧ (data ≠ productIdBytes →
      Gt911Blocking.init i2c_addr (initState bus)
        = (.err .UnexpectedProductId, ⟨bus, 2, [cmdTx i2c_addr, idTx i2c_addr]⟩)
      ∧ Gt911.init i2c_addr (initState bus)
        = (.err .UnexpectedProductId, ⟨bus, 2, [cmdTx i2c_addr, idTx i2c_addr]⟩)) := by
  have hnorm : (List.range 4).map (fun i => data[i]?.getD 0 % 256) = data := by
    rw [← hlen]
    exact read_norm data hb
  constructor
  · intro heq
    subst heq
    have h : Gt911Blocking.init i2c_addr (initState bus)
        = (.ok (), ⟨bus, 3, [cmdTx i2c_addr, idTx i2c_addr, clearTx i2c_addr]⟩) := by
      simp [Gt911Blocking.init, busWrite, busRead, initState, h0, h1, h2, hnorm,
        to_be_cmd, to_be_product, to_be_status, cmdTx, idTx, clearTx,
        show isValidUtf8 productIdBytes = true from by decide]
    exact ⟨h, h⟩
  · intro hne
    have h : Gt911Blocking.init i2c_addr (initState bus)
        = (.err .UnexpectedProductId, ⟨bus, 2, [cmdTx i2c_addr, idTx i2c_addr]⟩) := by
      by_cases hv : isValidUtf8 data <;>
        simp [Gt911Blocking.init, busWrite, busRead, initState, h0, h1, hnorm,
          to_be_cmd, to_be_product, cmdTx, idTx, hv, hne]
    exact ⟨h, h⟩

/-- Witness for C6: the exact identity bytes succeed; the non-UTF8 bytes
0xFF 0x00 0x00 0x00 fail with UnexpectedProductId after two transactions. -/
theorem C6_init_identity_witness :
    (Gt911Blocking.init 0x5D (initState (fun _ => BusResp.ok (E := Unit) productIdBytes))
      = (.ok (), ⟨fun _ => BusResp.ok productIdBytes, 3,
          [cmdTx 0x5D, idTx 0x5D, clearTx 0x5D]⟩))
    ∧ (Gt911Blocking.init 0x5D (initState (fun _ => BusResp.ok (E := Unit) [0xFF, 0, 0, 0]))
      = (.err .UnexpectedProductId, ⟨fun _ => BusResp.ok [0xFF, 0, 0, 0], 2,
          [cmdTx 0x5D, idTx 0x5D]⟩)) :=
  ⟨((C6_init_identity 0x5D (fun _ => BusResp.ok productIdBytes) productIdBytes
      productIdBytes productIdBytes (by decide) (by decide) rfl rfl rfl).1 rfl).1,
   ((C6_init_identity 0x5D (fun _ => BusResp.ok [0xFF, 0, 0, 0]) [0xFF, 0, 0, 0]
      [0xFF, 0, 0, 0] [0xFF, 0, 0, 0] (by decide) (by decide) rfl rfl rfl).2
      (by decide)).1⟩

/-- C8: on every bus address and every bus-response sequence, the async
controller and the blocking controller return the same result and issue
the same transaction trace, for init, get_touch, get_multi_touch and the
status poll. -/
theorem C8_async_blocking_agree {E : Type} (i2c_addr : Nat) (s : BusState E) :
    Gt911.init i2c_addr s = Gt911Blocking.init i2c_addr s
    ∧ Gt911.get_touch i2c_addr s = Gt911Blocking.get_touch i2c_addr s
    ∧ Gt911.get_multi_touch i2c_addr s = Gt911Blocking.get_multi_touch i2c_addr s
    ∧ Gt911.get_num_touch_points i2c_addr s = Gt911Blocking.get_num_touch_points i2c_addr s :=
  ⟨rfl, rfl, rfl, rfl⟩

end GT911
